import Mathlib

/-!
A shallow embedding of `src/horovod/common/ops/gloo_operations.cc`:
the element-algorithm dispatcher (`GetAlgorithmsForType`), the three
collective executors (`GlooAllreduce`, `GlooAllgather`, `GlooBroadcast`)
as trace-producing functions, and the allgather size/offset planner and
fusion-buffer pack/unpack contracts (whose implementations live outside
the shown source and are modelled from the spec where noted).
-/

namespace GlooOps

/-- Modelled from the spec: the `DataType` enumeration (declared in a header
that is not part of the shown source).  The spec's fixed enumerated input set
is "unsigned/signed 8/16/32/64-bit integers, 32/64-bit floating point,
boolean". -/
inductive DataType
  | HOROVOD_UINT8
  | HOROVOD_INT8
  | HOROVOD_UINT16
  | HOROVOD_INT16
  | HOROVOD_UINT32
  | HOROVOD_INT32
  | HOROVOD_UINT64
  | HOROVOD_INT64
  | HOROVOD_FLOAT32
  | HOROVOD_FLOAT64
  | HOROVOD_BOOL
  deriving DecidableEq, Repr

/-- Modelled from the spec: `DataType_Name` (declared outside the shown
source) maps each type tag to its printable name, used by the
unsupported-type error message. -/
def DataType_Name : DataType → String
  | .HOROVOD_UINT8 => "uint8"
  | .HOROVOD_INT8 => "int8"
  | .HOROVOD_UINT16 => "uint16"
  | .HOROVOD_INT16 => "int16"
  | .HOROVOD_UINT32 => "uint32"
  | .HOROVOD_INT32 => "int32"
  | .HOROVOD_UINT64 => "uint64"
  | .HOROVOD_INT64 => "int64"
  | .HOROVOD_FLOAT32 => "float32"
  | .HOROVOD_FLOAT64 => "float64"
  | .HOROVOD_BOOL => "bool"

/-- The state a `GlooAlgorithms<T>` object carries that is visible to this
layer: the element size passed to its constructor (`element_size_`). -/
structure GlooAlgorithms where
  element_size : Nat
  deriving DecidableEq, Repr

/-- `GetAlgorithmsForType` (source lines 25-49): a switch over the type tag
returning a `GlooAlgorithms` handle with the hard-coded element size, or
throwing a `std::logic_error` (modelled as `Except.error` carrying the
message) for any tag without a case. -/
def GetAlgorithmsForType (dtype : DataType) : Except String GlooAlgorithms :=
  match dtype with
  | .HOROVOD_UINT8 => .ok ⟨1⟩
  | .HOROVOD_INT8 => .ok ⟨1⟩
  | .HOROVOD_UINT16 => .ok ⟨2⟩
  | .HOROVOD_INT16 => .ok ⟨2⟩
  | .HOROVOD_INT32 => .ok ⟨4⟩
  | .HOROVOD_INT64 => .ok ⟨8⟩
  | .HOROVOD_FLOAT32 => .ok ⟨4⟩
  | .HOROVOD_FLOAT64 => .ok ⟨8⟩
  | .HOROVOD_BOOL => .ok ⟨1⟩
  | _ => .error ("Type " ++ DataType_Name dtype ++ " is not supported in Gloo mode.")

/-- The native byte width of each element type as the spec's words give it:
1 for 8-bit types and bool, 2 for 16-bit, 4 for 32-bit, 8 for 64-bit. -/
def nativeByteWidth : DataType → Nat
  | .HOROVOD_UINT8 => 1
  | .HOROVOD_INT8 => 1
  | .HOROVOD_BOOL => 1
  | .HOROVOD_UINT16 => 2
  | .HOROVOD_INT16 => 2
  | .HOROVOD_UINT32 => 4
  | .HOROVOD_INT32 => 4
  | .HOROVOD_FLOAT32 => 4
  | .HOROVOD_UINT64 => 8
  | .HOROVOD_INT64 => 8
  | .HOROVOD_FLOAT64 => 8

/-- The fields of a `TensorTableEntry` this source reads: the tensor's dtype,
its element count (`tensor->shape().num_elements()`), its byte size
(`tensor->size()`) and, for broadcast, the root rank. -/
structure TensorTableEntry where
  dtype : DataType
  tensorNumElements : Nat
  tensorSize : Nat
  root_rank : Nat
  deriving DecidableEq, Repr

instance : Inhabited TensorTableEntry :=
  ⟨⟨DataType.HOROVOD_UINT8, 0, 0, 0⟩⟩

/-- The buffers a pointer handed to a collective or a memcpy can refer to:
an entry's immutable input tensor data, an entry's output buffer, or the
process-wide fusion buffer. -/
inductive Buffer
  | tensorData (idx : Nat)
  | outputData (idx : Nat)
  | fusionBuffer
  deriving DecidableEq, Repr

/-- Observable actions of one executor run: timeline notifications, memory
copies, and calls into the gloo backend (the network activity). -/
inductive Event
  | activityStartAll (activity : String)
  | activityEndAll
  | memcpyInFusionBuffer
  | memcpyOutFusionBuffer
  | memcpy (dst src : Buffer) (len : Nat)
  | glooAllreduce (dtype : DataType) (buffer : Buffer) (numElements : Nat)
  | glooAllgather (dtype : DataType) (input output : Buffer) (numElements : Nat)
  | glooBroadcast (dtype : DataType) (buffer : Buffer) (numElements : Nat) (rootRank : Nat)
  deriving DecidableEq, Repr

/-- A horovod `Status`: ok, or a failure carrying a message. -/
inductive Status
  | ok
  | error (msg : String)
  deriving DecidableEq, Repr

/-- How one `Execute` call terminates: a returned `Status`, a C++ exception
escaping the call (`std::logic_error` from the dispatcher), or a failed
C `assert` aborting the process. -/
inductive ExecResult
  | ret (status : Status)
  | exn (msg : String)
  | assertFailed
  deriving DecidableEq, Repr

def MEMCPY_IN_FUSION_BUFFER : String := "MEMCPY_IN_FUSION_BUFFER"

def MEMCPY_OUT_FUSION_BUFFER : String := "MEMCPY_OUT_FUSION_BUFFER"

def GLOO_ALLREDUCE : String := "GLOO_ALLREDUCE"

def ALLOCATE_OUTPUT : String := "ALLOCATE_OUTPUT"

def GLOO_ALLGATHER : String := "GLOO_ALLGATHER"

def GLOO_BCAST : String := "GLOO_BCAST"

/-- `NumElements(entries)`: the total element count of a batch, the sum of
each entry's tensor element count (helper of the op base class, summing
`e.tensor->shape().num_elements()` over the batch). -/
def NumElements (entries : List TensorTableEntry) : Nat :=
  (entries.map (fun e => e.tensorNumElements)).sum

/-- `GlooAllreduce::Execute` (source lines 91-125) as a trace semantics.
Multi-entry batches copy into the fusion buffer (bracketed by timeline
notifications); a single entry is memcpy'd into its own output buffer.
The allreduce phase starts, the algorithm is resolved from the FIRST
entry's dtype (a dispatch failure escapes as an exception with the phase
still open), the backend allreduce runs on the chosen buffer, the phase
ends, and multi-entry batches copy back out of the fusion buffer. -/
def GlooAllreduce.Execute (entries : List TensorTableEntry) :
    ExecResult × List Event :=
  let first_entry := entries.headI
  let num_elements := NumElements entries
  let copyIn : List Event :=
    if 1 < entries.length then
      [.activityStartAll MEMCPY_IN_FUSION_BUFFER, .memcpyInFusionBuffer, .activityEndAll]
    else
      [.memcpy (.outputData 0) (.tensorData 0) first_entry.tensorSize]
  let buffer_data : Buffer :=
    if 1 < entries.length then .fusionBuffer else .outputData 0
  match GetAlgorithmsForType first_entry.dtype with
  | .error msg => (.exn msg, copyIn ++ [.activityStartAll GLOO_ALLREDUCE])
  | .ok _ =>
    let reduceEvents : List Event :=
      [.activityStartAll GLOO_ALLREDUCE,
       .glooAllreduce first_entry.dtype buffer_data num_elements,
       .activityEndAll]
    let copyOut : List Event :=
      if 1 < entries.length then
        [.activityStartAll MEMCPY_OUT_FUSION_BUFFER, .memcpyOutFusionBuffer, .activityEndAll]
      else []
    (.ret .ok, copyIn ++ reduceEvents ++ copyOut)

/-- `GlooAllgather::Execute` (source lines 142-211) as a trace semantics,
with the result of the `AllocateOutput` collaborator call passed in as
`allocStatus` (its implementation is outside the shown source).  The
ALLOCATE_OUTPUT phase starts; a non-ok allocation status is returned
unchanged at once — before the matching phase-end notification and before
any backend call.  Otherwise the phase ends, displacements and offsets are
computed (pure bookkeeping, no events), the algorithm is resolved from the
FIRST entry's dtype (failure escapes as an exception), multi-entry batches
copy into the fusion buffer, and the backend allgather is invoked with
`buffer_data` as BOTH input and output (the `sendbuf` pointer set on the
single-entry path is never passed to it — the source's own TODO comment
flags this path as not working). -/
def GlooAllgather.Execute (entries : List TensorTableEntry)
    (allocStatus : Status) : ExecResult × List Event :=
  let first_entry := entries.headI
  match allocStatus with
  | .error msg => (.ret (.error msg), [.activityStartAll ALLOCATE_OUTPUT])
  | .ok =>
    let pre : List Event := [.activityStartAll ALLOCATE_OUTPUT, .activityEndAll]
    match GetAlgorithmsForType first_entry.dtype with
    | .error msg => (.exn msg, pre)
    | .ok _ =>
      let total_num_elements := NumElements entries
      let copyIn : List Event :=
        if 1 < entries.length then
          [.activityStartAll MEMCPY_IN_FUSION_BUFFER, .memcpyInFusionBuffer, .activityEndAll]
        else []
      let buffer_data : Buffer :=
        if 1 < entries.length then .fusionBuffer else .outputData 0
      let gatherEvents : List Event :=
        [.activityStartAll GLOO_ALLGATHER,
         .glooAllgather first_entry.dtype buffer_data buffer_data total_num_elements,
         .activityEndAll]
      let copyOut : List Event :=
        if 1 < entries.length then
          [.activityStartAll MEMCPY_OUT_FUSION_BUFFER, .memcpyOutFusionBuffer, .activityEndAll]
        else []
      (.ret .ok, pre ++ copyIn ++ gatherEvents ++ copyOut)

/-- The buffer pointer `GlooBroadcast::Execute` selects (source lines
220-226): on the root rank the entry's input tensor data, on every other
rank the entry's output buffer. -/
def GlooBroadcast.dataPtr (rank root_rank : Nat) : Buffer :=
  if rank = root_rank then .tensorData 0 else .outputData 0

/-- `GlooBroadcast::Execute` (source lines 216-234) as a trace semantics for
the local rank `rank`.  The leading `assert(entries.size() == 1)` is
modelled as a fatal precondition failure: a batch of any other size aborts
before anything else happens.  Otherwise the source/destination pointer is
selected by rank, the GLOO_BCAST phase starts, the algorithm is resolved
from the entry's dtype (failure escapes as an exception), the backend
broadcast runs, and the phase ends. -/
def GlooBroadcast.Execute (entries : List TensorTableEntry) (rank : Nat) :
    ExecResult × List Event :=
  if entries.length = 1 then
    let e := entries.headI
    let data_ptr := GlooBroadcast.dataPtr rank e.root_rank
    match GetAlgorithmsForType e.dtype with
    | .error msg => (.exn msg, [.activityStartAll GLOO_BCAST])
    | .ok _ =>
      (.ret .ok,
       [.activityStartAll GLOO_BCAST,
        .glooBroadcast e.dtype data_ptr e.tensorNumElements e.root_rank,
        .activityEndAll])
  else (.assertFailed, [])

/-- Is this event a call into the gloo backend (collective network
activity)? -/
def isNetworkEvent : Event → Bool
  | .glooAllreduce _ _ _ => true
  | .glooAllgather _ _ _ _ => true
  | .glooBroadcast _ _ _ _ => true
  | _ => false

/-- The dtype an event's backend algorithm was dispatched for, when the
event is a fused-buffer collective (allreduce or allgather). -/
def eventAlgoType : Event → Option DataType
  | .glooAllreduce d _ _ => some d
  | .glooAllgather d _ _ _ => some d
  | _ => none

def isStartEvent : Event → Bool
  | .activityStartAll _ => true
  | _ => false

def isEndEvent : Event → Bool
  | .activityEndAll => true
  | _ => false

/-- Number of `ActivityStartAll` notifications in a trace. -/
def countStarts (tr : List Event) : Nat :=
  (tr.filter isStartEvent).length

/-- Number of `ActivityEndAll` notifications in a trace. -/
def countEnds (tr : List Event) : Nat :=
  (tr.filter isEndEvent).length

/-- Modelled from the spec: the per-rank receive count computed by the
`AllocateOutput` collaborator (outside the shown source) — "per-rank total
= sum over i of size[i][r]", the total contribution of rank `r` across the
first `numEntries` tensors of the batch. -/
def totalRecvcount (size : Nat → Nat → Nat) (numEntries r : Nat) : Nat :=
  ∑ i ∈ Finset.range numEntries, size i r

/-- Modelled from the spec: `SetDisplacements` of the allgather op base
class (outside the shown source), following the spec's invariant
"displacement[0] = 0; displacement[r] = displacement[r-1] +
totalSize[r-1]", with `recvcounts` the per-rank totals. -/
def SetDisplacements (recvcounts : Nat → Nat) : Nat → Nat
  | 0 => 0
  | r + 1 => SetDisplacements recvcounts r + recvcounts r

/-- Modelled from the spec: `SetEntryComponentOffsets` of the allgather op
base class (outside the shown source) — rank `r`'s tensor 0 component
starts at the rank's displacement, and each later tensor's component
starts right after the previous tensor's component from the same rank, so
that offset[i][r] = displacement[r] + (sum over tensors j < i of
size[j][r]). -/
def SetEntryComponentOffsets (size : Nat → Nat → Nat) (displcmnts : Nat → Nat) :
    Nat → Nat → Nat
  | 0, r => displcmnts r
  | i + 1, r => SetEntryComponentOffsets size displcmnts i r + size i r

/-- The spec's concrete allgather planner example: 2 tensors and 3 ranks,
tensor 0 sizes [4,4,4] bytes, tensor 1 sizes [8,4,8] bytes. -/
def exampleSizes : Nat → Nat → Nat
  | 0, 0 => 4
  | 0, 1 => 4
  | 0, 2 => 4
  | 1, 0 => 8
  | 1, 1 => 4
  | 1, 2 => 8
  | _, _ => 0

/-- Modelled from the spec: `packInto(entries[], destinationBuffer)` of the
fusion buffer manager (`MemcpyInFusionBuffer`, outside the shown source) —
each tensor's bytes are copied back-to-back, no padding, in the order
supplied; exceeding the buffer's capacity is a fatal precondition failure
(modelled as `none`). -/
def packInto (tensors : List (List Nat)) (capacity : Nat) : Option (List Nat) :=
  if (tensors.map List.length).sum ≤ capacity then some tensors.flatten else none

/-- Modelled from the spec: `unpackFrom(sourceBuffer, entries[])` of the
fusion buffer manager (`MemcpyOutFusionBuffer`, outside the shown source) —
each tensor's slice is copied out of the buffer at the same offsets used
during packing, i.e. the cursor advances by each tensor's byte size in
turn. -/
def unpackFrom (buffer : List Nat) : List Nat → List (List Nat)
  | [] => []
  | s :: sizes => buffer.take s :: unpackFrom (buffer.drop s) sizes

/-- The byte sizes of a batch of tensors, in the order supplied. -/
def byteSizes (tensors : List (List Nat)) : List Nat :=
  tensors.map List.length

/-- The per-rank buffers broadcast touches: the rank's immutable input
tensor data, its output buffer, and its fusion buffer. -/
structure RankState where
  tensor : List Nat
  output : List Nat
  fusion : List Nat
  deriving DecidableEq, Repr

/-- The contents a buffer pointer refers to in a rank's state. -/
def bufferContents (s : RankState) : Buffer → List Nat
  | .tensorData _ => s.tensor
  | .outputData _ => s.output
  | .fusionBuffer => s.fusion

/-- Overwrite the buffer a pointer refers to in a rank's state. -/
def setBufferContents (s : RankState) : Buffer → List Nat → RankState
  | .tensorData _, v => { s with tensor := v }
  | .outputData _, v => { s with output := v }
  | .fusionBuffer, v => { s with fusion := v }

/-- Modelled from the spec: the collective backend's broadcast collaborator
(`gloo::BroadcastOneToAll`, an external library) — "the contents of
`buffer` on `rootRank` are copied into `buffer` on every other rank",
where `ptr k` is the buffer pointer rank `k` passed to the call; the root
rank's own state is unchanged. -/
def BroadcastOneToAll (world : Nat → RankState) (ptr : Nat → Buffer)
    (root : Nat) : Nat → RankState :=
  fun k =>
    if k = root then world k
    else setBufferContents (world k) (ptr k) (bufferContents (world root) (ptr root))

/-- A sample single-tensor batch entry: one float32 tensor of 3 elements
(12 bytes), root rank 0. -/
def sampleEntry : TensorTableEntry :=
  ⟨DataType.HOROVOD_FLOAT32, 3, 12, 0⟩

/-- The buffers passed as the gather input in a trace, in order. -/
def allgatherInputBuffers (tr : List Event) : List Buffer :=
  tr.filterMap fun e =>
    match e with
    | .glooAllgather _ inp _ _ => some inp
    | _ => none

/-- A sample three-rank world for the broadcast semantics: every rank holds
tensor data [7, 7] and a zeroed output buffer. -/
def sampleWorld : Nat → RankState :=
  fun _ => ⟨[7, 7], [0, 0], []⟩

theorem unpackFrom_flatten (tensors : List (List Nat)) :
    unpackFrom tensors.flatten (byteSizes tensors) = tensors := by
  induction tensors with
  | nil => rfl
  | cons t ts ih =>
    simp only [byteSizes, List.map_cons, List.flatten_cons, unpackFrom,
      List.take_left, List.drop_left]
    exact congrArg (t :: ·) ih

/-- Claim C7: for every batch of tensors whose total byte size fits the
fusion buffer capacity, packing them back-to-back in order and unpacking
with the same offsets reproduces each tensor's original bytes exactly. -/
theorem packInto_unpackFrom_roundtrip (tensors : List (List Nat)) (capacity : Nat)
    (h : (byteSizes tensors).sum ≤ capacity) :
    ∃ buf, packInto tensors capacity = some buf ∧
      unpackFrom buf (byteSizes tensors) = tensors := by
  refine ⟨tensors.flatten, ?_, unpackFrom_flatten tensors⟩
  unfold packInto
  simp only [byteSizes] at h
  rw [if_pos h]

/-- Witness for claim C7 at a concrete batch of two tensors and capacity 5. -/
theorem packInto_unpackFrom_roundtrip_witness :
    ∃ buf, packInto [[1, 2], [3, 4, 5]] 5 = some buf ∧
      unpackFrom buf (byteSizes [[1, 2], [3, 4, 5]]) = [[1, 2], [3, 4, 5]] :=
  packInto_unpackFrom_roundtrip [[1, 2], [3, 4, 5]] 5 (by decide)

/-- Claim C2: for every size table, displacement table, tensor index and
rank, the computed offset equals the rank's displacement plus the sizes of
all earlier tensors' components from that rank; and on the spec's concrete
example (2 tensors, 3 ranks, tensor 0 sizes [4,4,4] and tensor 1 sizes
[8,4,8]) the offset of tensor 1 at rank 2 is 24. -/
theorem SetEntryComponentOffsets_spec :
    (∀ (size : Nat → Nat → Nat) (displcmnts : Nat → Nat) (i r : Nat),
      SetEntryComponentOffsets size displcmnts i r =
        displcmnts r + ∑ j ∈ Finset.range i, size j r) ∧
    SetEntryComponentOffsets exampleSizes
      (SetDisplacements (totalRecvcount exampleSizes 2)) 1 2 = 24 := by
  constructor
  · intro size displcmnts i r
    induction i with
    | zero => simp [SetEntryComponentOffsets]
    | succ n ih =>
      rw [SetEntryComponentOffsets, ih, Finset.sum_range_succ, Nat.add_assoc]
  · decide

/-- Claim C3: displacements are the exclusive prefix sums, in rank order, of
the per-rank totals (displacement[0] = 0 and displacement[r+1] =
displacement[r] + total[r]); a zero size entry contributes nothing, so the
displacements equal those of the size-omitted table; and on the spec's
concrete example the displacement table is [0, 12, 20]. -/
theorem SetDisplacements_spec :
    (∀ recvcounts : Nat → Nat, SetDisplacements recvcounts 0 = 0) ∧
    (∀ (recvcounts : Nat → Nat) (r : Nat),
      SetDisplacements recvcounts (r + 1) =
        SetDisplacements recvcounts r + recvcounts r) ∧
    (∀ (recvcounts : Nat → Nat) (r : Nat),
      SetDisplacements recvcounts r = ∑ q ∈ Finset.range r, recvcounts q) ∧
    (∀ (size : Nat → Nat → Nat) (n t k : Nat), size t k = 0 →
      ∀ r, SetDisplacements (totalRecvcount size n) r =
        SetDisplacements
          (fun rr => ∑ i ∈ (Finset.range n).filter (fun i => ¬(i = t ∧ rr = k)), size i rr)
          r) ∧
    (SetDisplacements (totalRecvcount exampleSizes 2) 0 = 0 ∧
     SetDisplacements (totalRecvcount exampleSizes 2) 1 = 12 ∧
     SetDisplacements (totalRecvcount exampleSizes 2) 2 = 20) := by
  refine ⟨fun _ => rfl, fun _ _ => rfl, ?_, ?_, by decide, by decide, by decide⟩
  · intro recvcounts r
    induction r with
    | zero => rfl
    | succ n ih => rw [SetDisplacements, ih, Finset.sum_range_succ]
  · intro size n t k h0 r
    have key : totalRecvcount size n =
        fun rr => ∑ i ∈ (Finset.range n).filter (fun i => ¬(i = t ∧ rr = k)), size i rr := by
      funext rr
      rw [totalRecvcount, Finset.sum_filter]
      refine Finset.sum_congr rfl ?_
      intro i _
      by_cases hc : i = t ∧ rr = k
      · obtain ⟨h1, h2⟩ := hc
        subst h1; subst h2
        simp [h0]
      · simp [hc]
    rw [key]

/-- Witness for claim C3: with the example table, whose wildcard entries are
zero, omitting the (tensor 0, rank 3) entry leaves every displacement
unchanged. -/
theorem SetDisplacements_spec_witness :
    SetDisplacements (totalRecvcount exampleSizes 2) 3 =
      SetDisplacements
        (fun rr => ∑ i ∈ (Finset.range 2).filter (fun i => ¬(i = 0 ∧ rr = 3)), exampleSizes i rr)
        3 :=
  SetDisplacements_spec.2.2.2.1 exampleSizes 2 0 3 (by decide) 3

/-- Claim C1 counterexample: the dispatcher does NOT return an algorithm
handle for the unsigned 32-bit integer type — that tag has no case in the
switch and falls through to the unsupported-type error, refuting the claim
that every unsigned 8/16/32/64-bit integer type is supported. -/
theorem GetAlgorithmsForType_uint32_not_ok :
    ¬ ∃ a : GlooAlgorithms,
      GetAlgorithmsForType DataType.HOROVOD_UINT32 = Except.ok a ∧
        a.element_size = 4 := by
  rintro ⟨a, ha, _⟩
  simp [GetAlgorithmsForType] at ha

/-- Claim C1 (amended): every supported element type — the nine with a
switch case: unsigned/signed 8- and 16-bit integers, signed 32/64-bit
integers, 32/64-bit floats and bool, but NOT unsigned 32/64-bit integers —
resolves to a handle whose element size equals the type's native byte
width; unsigned 32/64-bit tags fail with the unsupported-type error naming
the rejected type; and when the first entry's type fails to resolve, no
executor's trace contains any backend (network) call. -/
theorem GetAlgorithmsForType_spec :
    (∀ dt : DataType, dt ≠ DataType.HOROVOD_UINT32 → dt ≠ DataType.HOROVOD_UINT64 →
      ∃ a, GetAlgorithmsForType dt = Except.ok a ∧ a.element_size = nativeByteWidth dt) ∧
    (GetAlgorithmsForType DataType.HOROVOD_UINT32 =
      Except.error ("Type " ++ DataType_Name DataType.HOROVOD_UINT32 ++
        " is not supported in Gloo mode.")) ∧
    (GetAlgorithmsForType DataType.HOROVOD_UINT64 =
      Except.error ("Type " ++ DataType_Name DataType.HOROVOD_UINT64 ++
        " is not supported in Gloo mode.")) ∧
    (∀ (e0 : TensorTableEntry) (rest : List TensorTableEntry) (msg : String)
        (rank : Nat) (alloc : Status),
      GetAlgorithmsForType e0.dtype = Except.error msg →
      ((GlooAllreduce.Execute (e0 :: rest)).2.filter isNetworkEvent = [] ∧
       (GlooAllgather.Execute (e0 :: rest) alloc).2.filter isNetworkEvent = [] ∧
       (GlooBroadcast.Execute (e0 :: rest) rank).2.filter isNetworkEvent = [])) := by
  refine ⟨?_, rfl, rfl, ?_⟩
  · intro dt h32 h64
    cases dt <;>
      first
      | exact absurd rfl h32
      | exact absurd rfl h64
      | exact ⟨_, rfl, rfl⟩
  · intro e0 rest msg rank alloc h
    refine ⟨?_, ?_, ?_⟩
    · rcases rest with _ | ⟨b, bs⟩ <;>
        simp [GlooAllreduce.Execute, List.headI, h, isNetworkEvent]
    · cases alloc with
      | ok => simp [GlooAllgather.Execute, List.headI, h, isNetworkEvent]
      | error m => simp [GlooAllgather.Execute, isNetworkEvent]
    · rcases rest with _ | ⟨b, bs⟩ <;>
        simp [GlooBroadcast.Execute, List.headI, h, isNetworkEvent]

/-- Witness for claim C1 at concrete types: int32 resolves to element size
4, and a batch whose first entry has the unsupported uint32 type produces
no backend call in any executor. -/
theorem GetAlgorithmsForType_spec_witness :
    (∃ a, GetAlgorithmsForType DataType.HOROVOD_INT32 = Except.ok a ∧
      a.element_size = nativeByteWidth DataType.HOROVOD_INT32) ∧
    ((GlooAllreduce.Execute [⟨DataType.HOROVOD_UINT32, 3, 12, 0⟩]).2.filter isNetworkEvent = [] ∧
     (GlooAllgather.Execute [⟨DataType.HOROVOD_UINT32, 3, 12, 0⟩] Status.ok).2.filter isNetworkEvent = [] ∧
     (GlooBroadcast.Execute [⟨DataType.HOROVOD_UINT32, 3, 12, 0⟩] 0).2.filter isNetworkEvent = []) :=
  ⟨GetAlgorithmsForType_spec.1 DataType.HOROVOD_INT32 (by decide) (by decide),
   GetAlgorithmsForType_spec.2.2.2 ⟨DataType.HOROVOD_UINT32, 3, 12, 0⟩ [] _ 0 Status.ok rfl⟩

/-- Claim C4: for every all-gather batch, a failing AllocateOutput status is
returned unchanged and the trace contains no backend (network) call — the
gather collective is never invoked after the allocation failure. -/
theorem GlooAllgather_allocation_failure (entries : List TensorTableEntry) (msg : String) :
    (GlooAllgather.Execute entries (Status.error msg)).1 =
      ExecResult.ret (Status.error msg) ∧
    (GlooAllgather.Execute entries (Status.error msg)).2.filter isNetworkEvent = [] :=
  ⟨rfl, rfl⟩

/-- Claim C5: a broadcast batch with more than one entry trips the leading
assertion — a fatal precondition failure — and produces an empty trace, so
the backend collaborator is never invoked. -/
theorem GlooBroadcast_multi_entry_assert (entries : List TensorTableEntry) (rank : Nat)
    (h : 1 < entries.length) :
    GlooBroadcast.Execute entries rank = (ExecResult.assertFailed, []) := by
  have hne : ¬ entries.length = 1 := by omega
  simp [GlooBroadcast.Execute, hne]

/-- Witness for claim C5 at a concrete 2-entry batch on rank 0. -/
theorem GlooBroadcast_multi_entry_assert_witness :
    GlooBroadcast.Execute [sampleEntry, sampleEntry] 0 = (ExecResult.assertFailed, []) :=
  GlooBroadcast_multi_entry_assert [sampleEntry, sampleEntry] 0 (by decide)

/-- Claim C6, the code evaluated at the failing input: on a single-entry
all-gather batch (after a successful allocation) the backend gather is
invoked with the entry's OUTPUT buffer as both its input and its output;
the entry's input tensor data is never passed as the gather input. -/
theorem GlooAllgather_single_entry_input_is_output :
    (GlooAllgather.Execute [sampleEntry] Status.ok).2 =
      [Event.activityStartAll ALLOCATE_OUTPUT, Event.activityEndAll,
       Event.activityStartAll GLOO_ALLGATHER,
       Event.glooAllgather DataType.HOROVOD_FLOAT32 (Buffer.outputData 0) (Buffer.outputData 0) 3,
       Event.activityEndAll] ∧
    allgatherInputBuffers (GlooAllgather.Execute [sampleEntry] Status.ok).2 =
      [Buffer.outputData 0] ∧
    Buffer.tensorData 0 ∉ allgatherInputBuffers (GlooAllgather.Execute [sampleEntry] Status.ok).2 := by
  refine ⟨rfl, rfl, ?_⟩
  decide

/-- Claim C8 counterexample: on the all-gather allocation-failure path the
executor returns (with a failure status) after one ActivityStartAll and
zero ActivityEndAll notifications — a phase is started but never ended. -/
theorem allgather_alloc_failure_unbalanced_telemetry :
    countStarts (GlooAllgather.Execute [sampleEntry] (Status.error ("allocation failed"))).2 = 1 ∧
    countEnds (GlooAllgather.Execute [sampleEntry] (Status.error ("allocation failed"))).2 = 0 :=
  ⟨rfl, rfl⟩

/-- Claim C8 (amended): phase start/end notifications come in matched pairs
on every path on which no started phase is cut short by a failure — every
allreduce or broadcast run that returns a status (rather than escaping by
exception inside an open phase), and every allgather run whose allocation
succeeds.  On the allgather allocation-failure path the executor returns
with exactly one more start than ends (the ALLOCATE_OUTPUT phase is left
open). -/
theorem telemetry_matched_pairs :
    (∀ (entries : List TensorTableEntry) (s : Status),
      (GlooAllreduce.Execute entries).1 = ExecResult.ret s →
      countStarts (GlooAllreduce.Execute entries).2 =
        countEnds (GlooAllreduce.Execute entries).2) ∧
    (∀ entries : List TensorTableEntry,
      countStarts (GlooAllgather.Execute entries Status.ok).2 =
        countEnds (GlooAllgather.Execute entries Status.ok).2) ∧
    (∀ (entries : List TensorTableEntry) (msg : String),
      countStarts (GlooAllgather.Execute entries (Status.error msg)).2 =
        countEnds (GlooAllgather.Execute entries (Status.error msg)).2 + 1) ∧
    (∀ (entries : List TensorTableEntry) (rank : Nat) (s : Status),
      (GlooBroadcast.Execute entries rank).1 = ExecResult.ret s →
      countStarts (GlooBroadcast.Execute entries rank).2 =
        countEnds (GlooBroadcast.Execute entries rank).2) := by
  refine ⟨?_, ?_, fun _ _ => rfl, ?_⟩
  · intro entries s h
    cases hd : GetAlgorithmsForType entries.headI.dtype with
    | error msg => simp [GlooAllreduce.Execute, hd] at h
    | ok a =>
      by_cases hl : 1 < entries.length <;>
        simp [GlooAllreduce.Execute, hd, hl, countStarts, countEnds,
          isStartEvent, isEndEvent, List.filter]
  · intro entries
    cases hd : GetAlgorithmsForType entries.headI.dtype with
    | error msg =>
      simp [GlooAllgather.Execute, hd, countStarts, countEnds,
        isStartEvent, isEndEvent, List.filter]
    | ok a =>
      by_cases hl : 1 < entries.length <;>
        simp [GlooAllgather.Execute, hd, hl, countStarts, countEnds,
          isStartEvent, isEndEvent, List.filter]
  · intro entries rank s h
    by_cases h1 : entries.length = 1
    · cases hd : GetAlgorithmsForType entries.headI.dtype with
      | error msg => simp [GlooBroadcast.Execute, h1, hd] at h
      | ok a =>
        simp [GlooBroadcast.Execute, h1, hd, countStarts, countEnds,
          isStartEvent, isEndEvent, List.filter]
    · simp [GlooBroadcast.Execute, h1] at h

/-- Witness for claim C8: a successful single-entry allreduce run has as
many phase starts as phase ends. -/
theorem telemetry_matched_pairs_witness :
    countStarts (GlooAllreduce.Execute [sampleEntry]).2 =
      countEnds (GlooAllreduce.Execute [sampleEntry]).2 :=
  telemetry_matched_pairs.1 [sampleEntry] Status.ok rfl

/-- Claim C10: the algorithm dispatched for an allreduce or allgather batch
is resolved solely from the FIRST entry's data type — every backend
algorithm event in the trace carries the first entry's dtype, whatever the
dtypes of the remaining entries. -/
theorem dispatch_uses_first_entry_dtype :
    (∀ (e0 : TensorTableEntry) (rest : List TensorTableEntry),
      ∀ d ∈ ((GlooAllreduce.Execute (e0 :: rest)).2.filterMap eventAlgoType),
        d = e0.dtype) ∧
    (∀ (e0 : TensorTableEntry) (rest : List TensorTableEntry) (alloc : Status),
      ∀ d ∈ ((GlooAllgather.Execute (e0 :: rest) alloc).2.filterMap eventAlgoType),
        d = e0.dtype) := by
  constructor
  · intro e0 rest
    cases hd : GetAlgorithmsForType e0.dtype with
    | error msg =>
      rcases rest with _ | ⟨b, bs⟩ <;>
        simp [GlooAllreduce.Execute, List.headI, hd, eventAlgoType]
    | ok a =>
      rcases rest with _ | ⟨b, bs⟩ <;>
        simp [GlooAllreduce.Execute, List.headI, hd, eventAlgoType]
  · intro e0 rest alloc
    cases alloc with
    | error m => simp [GlooAllgather.Execute, eventAlgoType]
    | ok =>
      cases hd : GetAlgorithmsForType e0.dtype with
      | error msg =>
        simp [GlooAllgather.Execute, List.headI, hd, eventAlgoType]
      | ok a =>
        rcases rest with _ | ⟨b, bs⟩ <;>
          simp [GlooAllgather.Execute, List.headI, hd, eventAlgoType]

/-- Witness for claim C10: the algorithm event of a single-entry float32
allreduce batch carries float32, the first entry's dtype. -/
theorem dispatch_uses_first_entry_dtype_witness :
    DataType.HOROVOD_FLOAT32 = sampleEntry.dtype :=
  dispatch_uses_first_entry_dtype.1 sampleEntry [] DataType.HOROVOD_FLOAT32 (by decide)

/-- Claim C9: the root rank passes its input tensor data as the source
buffer and every non-root rank passes its output buffer (both as the
pointer the executor selects and as the buffer carried by the backend call
in the trace); and under the backend collaborator's broadcast semantics
every non-root rank's output buffer afterwards equals the root's tensor
content while the root's own state — and each non-root rank's input
tensor — is unchanged. -/
theorem GlooBroadcast_root_semantics (world : Nat → RankState) (root k : Nat) :
    GlooBroadcast.dataPtr root root = Buffer.tensorData 0 ∧
    (k ≠ root → GlooBroadcast.dataPtr k root = Buffer.outputData 0) ∧
    (∀ (e : TensorTableEntry) (rank : Nat) (a : GlooAlgorithms),
      GetAlgorithmsForType e.dtype = Except.ok a →
      Event.glooBroadcast e.dtype (GlooBroadcast.dataPtr rank e.root_rank)
          e.tensorNumElements e.root_rank ∈ (GlooBroadcast.Execute [e] rank).2) ∧
    (k ≠ root →
      (BroadcastOneToAll world (fun q => GlooBroadcast.dataPtr q root) root k).output =
        (world root).tensor ∧
      (BroadcastOneToAll world (fun q => GlooBroadcast.dataPtr q root) root k).tensor =
        (world k).tensor) ∧
    BroadcastOneToAll world (fun q => GlooBroadcast.dataPtr q root) root root = world root := by
  refine ⟨?_, ?_, ?_, ?_, ?_⟩
  · simp [GlooBroadcast.dataPtr]
  · intro h
    simp [GlooBroadcast.dataPtr, h]
  · intro e rank a hd
    simp [GlooBroadcast.Execute, List.headI, hd]
  · intro h
    simp [BroadcastOneToAll, GlooBroadcast.dataPtr, h, bufferContents, setBufferContents]
  · simp [BroadcastOneToAll]

/-- Witness for claim C9: with root rank 0 and rank 1 in the sample world,
rank 1's output buffer afterwards equals the root's tensor content, and
the executor's trace on rank 1 carries the selected buffer pointer. -/
theorem GlooBroadcast_root_semantics_witness :
    ((BroadcastOneToAll sampleWorld (fun q => GlooBroadcast.dataPtr q 0) 0 1).output =
      (sampleWorld 0).tensor) ∧
    Event.glooBroadcast sampleEntry.dtype (GlooBroadcast.dataPtr 1 sampleEntry.root_rank)
        sampleEntry.tensorNumElements sampleEntry.root_rank ∈
      (GlooBroadcast.Execute [sampleEntry] 1).2 :=
  ⟨((GlooBroadcast_root_semantics sampleWorld 0 1).2.2.2.1 (by decide)).1,
   (GlooBroadcast_root_semantics sampleWorld 0 1).2.2.1 sampleEntry 1 ⟨4⟩ rfl⟩

end GlooOps
